import Mathlib

/-!
Shallow embedding of the yt-dlp download service (`src/main.py`).

The service is a thin HTTP wrapper around an external extraction tool.
Every effectful ingredient of a request (the two subprocess invocations,
the JSON parse of the probe's stdout, the fresh uuid fragment, and the
state of the download directory) is passed in explicitly as data, so the
handlers become pure functions that we can reason about.

Strings are modelled as Lean `String` (sequences of code points, matching
Python `str` slicing/iteration); `str.isalnum` is modelled by the ASCII
`Char.isAlphanum`, which agrees with Python on the ASCII range.
-/

namespace YtDlp

/-- Outcome fields of a completed `subprocess.run` call. -/
structure ProcResult where
  returncode : Int
  stdout : String
  stderr : String
deriving DecidableEq, Repr

/-- A subprocess invocation either completes (with exit code and captured
streams) or raises `subprocess.TimeoutExpired`. -/
inductive ProcOutcome where
  | timeout
  | completed (r : ProcResult)
deriving DecidableEq, Repr

/-- Result of `json.loads(result.stdout)` on the probe's stdout, restricted
to the two fields the handler reads: `malformed` models a
`json.JSONDecodeError`; `parsed` models a JSON object whose `"title"` and
`"id"` keys are present (`some`) or absent (`none`). -/
inductive ProbeJson where
  | malformed
  | parsed (titleVal : Option String) (idVal : Option String)
deriving DecidableEq, Repr

/-- A directory entry of `DOWNLOAD_DIR` as the handlers observe it:
its name, whether `is_file()` holds, its `st_mtime`, and — for the
cleanup endpoint — whether `unlink()` raises (`some msg` carries the
exception's string form). -/
structure Entry where
  name : String
  isFile : Bool
  mtime : Nat
  unlinkError : Option String
deriving DecidableEq, Repr

deriving instance DecidableEq for Except

/-- An `HTTPException`: status code and detail message. -/
structure HttpError where
  status : Nat
  detail : String
deriving DecidableEq, Repr

/-- The JSON body returned by `download` on success. -/
structure SuccessResp where
  downloadUrl : String
  filename : String
  title : String
  source : String
deriving DecidableEq, Repr

/-- Python `s or fallback` on strings: the fallback replaces the empty
(falsy) string. Embeds `result.stderr or "..."`. -/
def orDefault (s fallback : String) : String :=
  if s = "" then fallback else s

/-- Python slicing `s[:n]` on a `str` (by code points). -/
def pyTake (n : Nat) (s : String) : String :=
  (s.toList.take n).asString

/-! ### urlparse (scheme and netloc only)

Embeds the part of `urllib.parse.urlparse` the handler consults:
`parsed.scheme` and `parsed.netloc`. Follows CPython `urlsplit`:
strip leading/trailing C0-control-or-space characters, drop tab/CR/LF
anywhere, split off a scheme `[A-Za-z][A-Za-z0-9+.-]*` before a colon
(lowercased), and read the netloc after a leading `//` up to the first
`/`, `?` or `#`. -/

/-- CPython `scheme_chars`: ASCII letters, digits, and `+`, `-`, `.`. -/
def schemeChar (c : Char) : Bool :=
  c.isAlphanum || c = '+' || c = '-' || c = '.'

/-- Split a character list at the first colon: `some (before, after)`,
or `none` when no colon occurs. -/
def splitAtColon : List Char → Option (List Char × List Char)
  | [] => none
  | c :: cs =>
    if c = ':' then some ([], cs)
    else
      match splitAtColon cs with
      | some (pre, post) => some (c :: pre, post)
      | none => none

/-- Strip matching characters from both ends of a list. -/
def stripListBy (p : Char → Bool) (l : List Char) : List Char :=
  ((l.dropWhile p).reverse.dropWhile p).reverse

/-- CPython `_WHATWG_C0_CONTROL_OR_SPACE`: code points up to U+0020. -/
def isC0OrSpace (c : Char) : Bool :=
  c.toNat ≤ 32

/-- CPython `urlsplit` input sanitisation: strip C0-or-space from both
ends, then remove tab, CR and LF anywhere. -/
def urlsplitClean (cs : List Char) : List Char :=
  (stripListBy isC0OrSpace cs).filter fun c => !(c = '\t' || c = '\r' || c = '\n')

/-- Characters ending the netloc component. -/
def netlocDelim (c : Char) : Bool :=
  c = '/' || c = '?' || c = '#'

/-- The two components of the parse result that `download` consults. -/
structure UrlParts where
  scheme : String
  netloc : String
deriving DecidableEq, Repr

/-- `urlparse(url)` restricted to `scheme` and `netloc`. -/
def urlparse (url : String) : UrlParts :=
  let cs := urlsplitClean url.toList
  let sr : List Char × List Char :=
    match splitAtColon cs with
    | some (pre, post) =>
      if (pre.headD ' ').isAlpha && pre.all schemeChar then
        (pre.map Char.toLower, post)
      else ([], cs)
    | none => ([], cs)
  let netloc : List Char :=
    if sr.2.take 2 = ['/', '/'] then
      (sr.2.drop 2).takeWhile fun c => !netlocDelim c
    else []
  ⟨sr.1.asString, netloc.asString⟩

/-! ### Safe filename -/

/-- The character filter of line 86 of `main.py`:
`c.isalnum() or c in (' ', '-', '_')`. -/
def keepChar (c : Char) : Bool :=
  c.isAlphanum || c = ' ' || c = '-' || c = '_'

/-- Python `str.strip()` (whitespace from both ends). -/
def stripWs (l : List Char) : List Char :=
  stripListBy Char.isWhitespace l

/-- Python `str.strip()` on a `String`: embeds `(req.url or "").strip()`
of line 51. -/
def pyStrip (s : String) : String :=
  (stripWs s.toList).asString

/-- `"".join(c for c in title if c.isalnum() or c in (' ', '-', '_')).strip()[:50]`. -/
def sanitizeTitle (title : String) : String :=
  ((stripWs (title.toList.filter keepChar)).take 50).asString

/-- `safe_title` after the empty-result fallback of lines 86–88:
`if not safe_title: safe_title = "video"`. -/
def safeFilename (title : String) : String :=
  let s := sanitizeTitle title
  if s = "" then "video" else s

/-- `filename = f"{safe_title}_{video_id}.mp4"` (line 89). -/
def expectedFilename (safeTitle vid : String) : String :=
  safeTitle ++ "_" ++ vid ++ ".mp4"

/-! ### Result resolution (lines 120–136) -/

/-- A directory entry matches the glob `f"{safe_title}_{video_id}.*"` iff
its name starts with `safe_title ++ "_" ++ video_id ++ "."` (the sanitized
title contains no glob metacharacters, and `*` matches any run of
characters, including the empty one). -/
def matchesGlob (safeTitle vid : String) (e : Entry) : Bool :=
  (safeTitle ++ "_" ++ vid ++ ".").toList.isPrefixOf e.name.toList

/-- Python `max(all_files, key=lambda p: p.stat().st_mtime)`: the first
entry attaining the maximal mtime (a later entry replaces the current
best only when strictly greater). -/
def pickLatest (e : Entry) (es : List Entry) : Entry :=
  es.foldl (fun best x => if best.mtime < x.mtime then x else best) e

/-- Lines 120–136: locate the artifact. Exact expected name first; then
the first `safe_title_video_id.*` glob match; then the most recently
modified entry of the directory; otherwise the 500 ArtifactMissing
failure. Returns the final `filename` used in the response. -/
def resolveArtifact (filename safeTitle vid : String) (entries : List Entry) :
    Except HttpError String :=
  if entries.any fun e => e.name = filename then .ok filename
  else
    match entries.filter (matchesGlob safeTitle vid) with
    | m :: _ => .ok m.name
    | [] =>
      match entries with
      | [] => .error ⟨500, "下載完成但找不到檔案"⟩
      | e :: es => .ok (pickLatest e es).name

/-! ### The download handler (lines 46–154) -/

/-- The effectful context of one `/api/download` request: outcome of the
probe subprocess, the JSON parse of its stdout, the fresh
`str(uuid.uuid4())[:8]`, the outcome of the download subprocess, and the
directory contents observed afterwards. -/
structure DownloadWorld where
  probeOutcome : ProcOutcome
  probeJson : ProbeJson
  freshId : String
  downloadOutcome : ProcOutcome
  dirEntries : List Entry
deriving DecidableEq, Repr

/-- The handler's response together with which external-tool invocations
were actually started. -/
structure HandlerOutput where
  result : Except HttpError SuccessResp
  probeInvoked : Bool
  downloadInvoked : Bool
deriving DecidableEq, Repr

/-- Lines 92–144: the download subprocess and result resolution, reached
with the probe already parsed (`title`, `videoId` as computed on
lines 82–83). -/
def afterParse (title videoId : String) (w : DownloadWorld) : HandlerOutput :=
  let safeTitle := safeFilename title
  let filename := expectedFilename safeTitle videoId
  match w.downloadOutcome with
  | .timeout => ⟨.error ⟨408, "下載超時，請稍後重試"⟩, true, true⟩
  | .completed dr =>
    if dr.returncode ≠ 0 then
      ⟨.error ⟨500, "下載失敗: " ++ pyTake 200 (orDefault dr.stderr "下載失敗")⟩, true, true⟩
    else
      match resolveArtifact filename safeTitle videoId w.dirEntries with
      | .ok name => ⟨.ok ⟨"/api/file/" ++ name, name, title, "yt-dlp"⟩, true, true⟩
      | .error e => ⟨.error e, true, true⟩

/-- Lines 60–90: the probe subprocess, its error handling, and the JSON
parse with the `"title"`/`"id"` defaults. -/
def afterValidate (w : DownloadWorld) : HandlerOutput :=
  match w.probeOutcome with
  | .timeout => ⟨.error ⟨408, "下載超時，請稍後重試"⟩, true, false⟩
  | .completed r =>
    if r.returncode ≠ 0 then
      ⟨.error ⟨400, "無法獲取影片資訊: " ++ pyTake 200 (orDefault r.stderr "無法獲取影片資訊")⟩,
        true, false⟩
    else
      match w.probeJson with
      | .malformed => ⟨.error ⟨400, "無法解析影片資訊"⟩, true, false⟩
      | .parsed titleVal idVal =>
        afterParse (titleVal.getD "video") (idVal.getD w.freshId) w

/-- The `/api/download` handler (lines 46–154): trim, validate the URL
(`url` and `parsed` of lines 51 and 56 are inlined), probe, parse,
download, resolve. -/
def download (rawUrl : String) (w : DownloadWorld) : HandlerOutput :=
  if pyStrip rawUrl = "" then ⟨.error ⟨400, "請輸入有效的URL"⟩, false, false⟩
  else if ¬((urlparse (pyStrip rawUrl)).scheme = "http" ∨ (urlparse (pyStrip rawUrl)).scheme = "https") ∨
      (urlparse (pyStrip rawUrl)).netloc = "" then
    ⟨.error ⟨400, "不支援的URL"⟩, false, false⟩
  else afterValidate w

/-- Status code of a handler result, `none` on success. -/
def resultStatus : Except HttpError SuccessResp → Option Nat
  | .error e => some e.status
  | .ok _ => none

/-! ### The file server (lines 156–182) -/

/-- Whether `needle` occurs as a contiguous run inside `hay` (Python's
`needle in hay` on strings, by code points). -/
def infixAux (needle : List Char) : List Char → Bool
  | [] => needle.isEmpty
  | c :: cs => needle.isPrefixOf (c :: cs) || infixAux needle cs

/-- Python `sub in s` for strings. -/
def containsSub (sub s : String) : Bool :=
  infixAux sub.toList s.toList

/-- The path-traversal guard of line 160:
`".." in filename or "/" in filename or "\\" in filename`. -/
def hasTraversal (filename : String) : Bool :=
  containsSub ".." filename || containsSub "/" filename || containsSub "\\" filename

/-- `pathlib.PurePath.suffix`: the final component's last extension —
`name[i:]` for the last dot index `i` when `0 < i < len(name) - 1`,
else the empty string. -/
def pySuffix (name : String) : String :=
  let cs := name.toList
  let afterRev := cs.reverse.takeWhile fun c => c ≠ '.'
  if 0 < afterRev.length ∧ afterRev.length + 1 < cs.length then
    ('.' :: afterRev.reverse).asString
  else ""

/-- The extension→MIME table of lines 169–176, with the
`application/octet-stream` default. -/
def mediaTypeFor (ext : String) : String :=
  if ext = ".mp4" then "video/mp4"
  else if ext = ".webm" then "video/webm"
  else if ext = ".mkv" then "video/x-matroska"
  else if ext = ".mp3" then "audio/mpeg"
  else if ext = ".m4a" then "audio/mp4"
  else "application/octet-stream"

/-- The `FileResponse` data the file server returns. -/
structure ServedFile where
  filename : String
  mediaType : String
deriving DecidableEq, Repr

/-- The file server's response, together with whether the handler reached
any filesystem operation (the `file_path.exists()` call). -/
structure GetFileOutput where
  result : Except HttpError ServedFile
  touchedFilesystem : Bool
deriving DecidableEq, Repr

/-- The `/api/file/{filename}` handler (lines 156–182). `entries` is the
observed content of `DOWNLOAD_DIR`. -/
def get_file (filename : String) (entries : List Entry) : GetFileOutput :=
  if hasTraversal filename then ⟨.error ⟨400, "無效的檔名"⟩, false⟩
  else if entries.any fun e => e.name = filename then
    let ext := ((pySuffix filename).toList.map Char.toLower).asString
    ⟨.ok ⟨filename, mediaTypeFor ext⟩, true⟩
  else ⟨.error ⟨404, "檔案不存在"⟩, true⟩

/-! ### Cleanup (lines 226–235) -/

/-- The directory after cleanup, and the endpoint's result (the success
message, or the 500 error). -/
structure CleanupOutput where
  remaining : List Entry
  result : Except HttpError String
deriving DecidableEq, Repr

/-- The `/api/cleanup` handler (lines 226–235): iterate over the directory
in order, unlink every regular file, keep everything else; the first
failing unlink aborts the loop with a 500 and leaves the tail untouched. -/
def cleanup : List Entry → CleanupOutput
  | [] => ⟨[], .ok "已清理下載目錄"⟩
  | e :: es =>
    if e.isFile then
      match e.unlinkError with
      | some msg => ⟨e :: es, .error ⟨500, "清理失敗: " ++ msg⟩⟩
      | none => cleanup es
    else
      let rest := cleanup es
      ⟨e :: rest.remaining, rest.result⟩

/-! ## Helper lemmas -/

theorem toList_asString (l : List Char) : (List.asString l).toList = l := rfl

theorem length_asString (l : List Char) : (List.asString l).length = l.length := rfl

theorem mem_of_mem_dropWhile {p : Char → Bool} {l : List Char} {c : Char}
    (h : c ∈ l.dropWhile p) : c ∈ l := by
  induction l with
  | nil => simp at h
  | cons a l ih =>
    rw [List.dropWhile_cons] at h
    by_cases ha : p a
    · simp only [ha, if_true] at h
      exact List.mem_cons_of_mem a (ih h)
    · simpa [ha] using h

theorem mem_of_mem_stripListBy {p : Char → Bool} {l : List Char} {c : Char}
    (h : c ∈ stripListBy p l) : c ∈ l := by
  unfold stripListBy at h
  rw [List.mem_reverse] at h
  have h1 := mem_of_mem_dropWhile h
  rw [List.mem_reverse] at h1
  exact mem_of_mem_dropWhile h1

theorem mem_sanitizeTitle {title : String} {c : Char}
    (h : c ∈ (sanitizeTitle title).toList) : keepChar c = true := by
  unfold sanitizeTitle at h
  rw [toList_asString] at h
  have h1 : c ∈ stripWs (title.toList.filter keepChar) := List.take_subset _ _ h
  have h2 : c ∈ title.toList.filter keepChar := mem_of_mem_stripListBy h1
  exact (List.mem_filter.mp h2).2

/-- With a valid URL, `download` proceeds past validation. -/
theorem download_valid (rawUrl : String) (w : DownloadWorld)
    (hurl : ¬ pyStrip rawUrl = "")
    (hscheme : (urlparse (pyStrip rawUrl)).scheme = "http" ∨ (urlparse (pyStrip rawUrl)).scheme = "https")
    (hnet : ¬ (urlparse (pyStrip rawUrl)).netloc = "") :
    download rawUrl w = afterValidate w := by
  unfold download
  rw [if_neg hurl, if_neg (by push_neg; exact ⟨hscheme, hnet⟩)]

theorem cleanup_ok_of_no_failures (entries : List Entry)
    (hok : ∀ e ∈ entries, e.isFile = true → e.unlinkError = none) :
    cleanup entries = ⟨entries.filter fun e => !e.isFile, .ok "已清理下載目錄"⟩ := by
  induction entries with
  | nil => rfl
  | cons e es ih =>
    by_cases hf : e.isFile
    · have hne : e.unlinkError = none := hok e (List.mem_cons_self e es) hf
      have := ih fun x hx => hok x (List.mem_cons_of_mem e hx)
      simp [cleanup, hf, hne, this]
    · have := ih fun x hx => hok x (List.mem_cons_of_mem e hx)
      simp [cleanup, hf, this]

theorem cleanup_aborts_at_failure (pre : List Entry) (f : Entry) (post : List Entry)
    (msg : String) (hf : f.isFile = true) (hfe : f.unlinkError = some msg)
    (hpre : ∀ e ∈ pre, e.isFile = true → e.unlinkError = none) :
    cleanup (pre ++ f :: post) =
      ⟨(pre.filter fun e => !e.isFile) ++ f :: post,
        .error ⟨500, "清理失敗: " ++ msg⟩⟩ := by
  induction pre with
  | nil => simp [cleanup, hf, hfe]
  | cons e es ih =>
    have ih' := ih fun x hx => hpre x (List.mem_cons_of_mem e hx)
    by_cases he : e.isFile
    · have hne : e.unlinkError = none := hpre e (List.mem_cons_self e es) he
      simp [cleanup, he, hne, ih']
    · simp [cleanup, he, ih']

/-! ## Claims -/

/-- C1: the result resolver tries its fallbacks in a fixed order with
first match winning: the exact expected path if it exists; otherwise the
first entry matching the glob `safeTitle_id.*` (so an extension
substituted by the tool still resolves, not ArtifactMissing); and only
when the glob has no match, the most-recently-modified entry of the
output directory. -/
theorem resolver_fallback_order (filename safeTitle vid : String) (entries : List Entry) :
    ((entries.any fun e => e.name = filename) = true →
      resolveArtifact filename safeTitle vid entries = .ok filename) ∧
    ((entries.any fun e => e.name = filename) = false →
      ∀ m ms, entries.filter (matchesGlob safeTitle vid) = m :: ms →
        resolveArtifact filename safeTitle vid entries = .ok m.name) ∧
    ((entries.any fun e => e.name = filename) = false →
      entries.filter (matchesGlob safeTitle vid) = [] →
      ∀ e es, entries = e :: es →
        resolveArtifact filename safeTitle vid entries = .ok (pickLatest e es).name) := by
  refine ⟨?_, ?_, ?_⟩
  · intro h
    simp [resolveArtifact, h]
  · intro h m ms hm
    simp [resolveArtifact, h, hm]
  · intro h hg e es he
    subst he
    simp [resolveArtifact, h, hg]

theorem resolver_fallback_order_witness :
    resolveArtifact "t_a.mp4" "t" "a" [⟨"t_a.mp4", true, 1, none⟩] = .ok "t_a.mp4" ∧
    resolveArtifact "t_a.mp4" "t" "a" [⟨"t_a.mkv", true, 1, none⟩] = .ok "t_a.mkv" ∧
    resolveArtifact "t_a.mp4" "t" "a"
      [⟨"other1.webm", true, 1, none⟩, ⟨"other2.webm", true, 7, none⟩] = .ok "other2.webm" :=
  ⟨(resolver_fallback_order "t_a.mp4" "t" "a" [⟨"t_a.mp4", true, 1, none⟩]).1 (by decide),
   (resolver_fallback_order "t_a.mp4" "t" "a" [⟨"t_a.mkv", true, 1, none⟩]).2.1 (by decide)
     ⟨"t_a.mkv", true, 1, none⟩ [] (by decide),
   (resolver_fallback_order "t_a.mp4" "t" "a"
       [⟨"other1.webm", true, 1, none⟩, ⟨"other2.webm", true, 7, none⟩]).2.2 (by decide)
     (by decide) ⟨"other1.webm", true, 1, none⟩ [⟨"other2.webm", true, 7, none⟩] rfl⟩

/-- C3: a filename containing `..`, `/` or `\` makes the file server fail
with InvalidInput (400) before any filesystem access; a filename free of
those whose path does not exist under the output directory fails with
NotFound (404). -/
theorem file_server_guard (filename : String) (entries : List Entry) :
    ((containsSub ".." filename = true ∨ containsSub "/" filename = true ∨
        containsSub "\\" filename = true) →
      get_file filename entries = ⟨.error ⟨400, "無效的檔名"⟩, false⟩) ∧
    (containsSub ".." filename = false → containsSub "/" filename = false →
      containsSub "\\" filename = false →
      (entries.any fun e => e.name = filename) = false →
      get_file filename entries = ⟨.error ⟨404, "檔案不存在"⟩, true⟩) := by
  constructor
  · intro h
    have ht : hasTraversal filename = true := by
      unfold hasTraversal
      rcases h with h | h | h <;> simp [h]
    simp [get_file, ht]
  · intro h1 h2 h3 h4
    have ht : hasTraversal filename = false := by
      unfold hasTraversal
      simp [h1, h2, h3]
    simp [get_file, ht, h4]

theorem file_server_guard_witness :
    get_file "../etc/passwd" [] = ⟨.error ⟨400, "無效的檔名"⟩, false⟩ ∧
    get_file "a/b" [] = ⟨.error ⟨400, "無效的檔名"⟩, false⟩ ∧
    get_file "a\\b" [] = ⟨.error ⟨400, "無效的檔名"⟩, false⟩ ∧
    get_file "missing.mp4" [⟨"other.mp4", true, 0, none⟩] =
      ⟨.error ⟨404, "檔案不存在"⟩, true⟩ :=
  ⟨(file_server_guard "../etc/passwd" []).1 (Or.inl (by decide)),
   (file_server_guard "a/b" []).1 (Or.inr (Or.inl (by decide))),
   (file_server_guard "a\\b" []).1 (Or.inr (Or.inr (by decide))),
   (file_server_guard "missing.mp4" [⟨"other.mp4", true, 0, none⟩]).2
     (by decide) (by decide) (by decide) (by decide)⟩

/-- C6: SafeFilename is a deterministic function of the title; it keeps
only alphanumeric characters, spaces, hyphens and underscores, truncates
to 50 characters, and a title whose sanitized form is empty collapses to
the literal fallback "video". -/
theorem safe_filename_deterministic_charset_truncated (title : String) :
    (∀ t, t = title → safeFilename t = safeFilename title) ∧
    (∀ c ∈ (safeFilename title).toList,
      c.isAlphanum = true ∨ c = ' ' ∨ c = '-' ∨ c = '_') ∧
    (safeFilename title).length ≤ 50 ∧
    (sanitizeTitle title = "" → safeFilename title = "video") := by
  refine ⟨?_, ?_, ?_, ?_⟩
  · intro t ht
    rw [ht]
  · intro c hc
    unfold safeFilename at hc
    by_cases h : sanitizeTitle title = ""
    · rw [if_pos h] at hc
      have hc' : c = 'v' ∨ c = 'i' ∨ c = 'd' ∨ c = 'e' ∨ c = 'o' := by
        simpa using hc
      rcases hc' with h | h | h | h | h <;> rw [h] <;> decide
    · rw [if_neg h] at hc
      have hk := mem_sanitizeTitle hc
      unfold keepChar at hk
      simp only [Bool.or_eq_true, decide_eq_true_eq] at hk
      tauto
  · unfold safeFilename
    by_cases h : sanitizeTitle title = ""
    · rw [if_pos h]
      decide
    · rw [if_neg h]
      unfold sanitizeTitle
      rw [length_asString, List.length_take]
      exact min_le_left _ _
  · intro h
    unfold safeFilename
    rw [if_pos h]

theorem safe_filename_witness :
    safeFilename "Test Video" = safeFilename "Test Video" ∧
    ('T'.isAlphanum = true ∨ 'T' = ' ' ∨ 'T' = '-' ∨ 'T' = '_') ∧
    safeFilename "***" = "video" :=
  ⟨(safe_filename_deterministic_charset_truncated "Test Video").1 "Test Video" rfl,
   (safe_filename_deterministic_charset_truncated "Test Video").2.1 'T' (by decide),
   (safe_filename_deterministic_charset_truncated "***").2.2.2 (by decide)⟩

/-- C9: cleanup deletes exactly the regular files directly under the
output directory without recursing (directories remain untouched), and a
deletion failure aborts with InternalError (500) without rolling back the
files already deleted: files before the failing one are gone, the failing
file and everything after it remain. -/
theorem cleanup_deletes_files_only_no_rollback (entries : List Entry) :
    ((∀ e ∈ entries, e.isFile = true → e.unlinkError = none) →
      cleanup entries = ⟨entries.filter fun e => !e.isFile, .ok "已清理下載目錄"⟩) ∧
    (∀ pre f post msg, entries = pre ++ f :: post → f.isFile = true →
      f.unlinkError = some msg →
      (∀ e ∈ pre, e.isFile = true → e.unlinkError = none) →
      cleanup entries = ⟨(pre.filter fun e => !e.isFile) ++ f :: post,
        .error ⟨500, "清理失敗: " ++ msg⟩⟩) := by
  constructor
  · exact cleanup_ok_of_no_failures entries
  · intro pre f post msg heq hf hfe hpre
    subst heq
    exact cleanup_aborts_at_failure pre f post msg hf hfe hpre

theorem cleanup_witness :
    cleanup [⟨"f1", true, 0, none⟩, ⟨"f2", true, 1, none⟩, ⟨"sub", false, 2, none⟩,
      ⟨"f3", true, 3, none⟩] = ⟨[⟨"sub", false, 2, none⟩], .ok "已清理下載目錄"⟩ ∧
    cleanup [⟨"a", true, 0, none⟩, ⟨"b", true, 1, some "perm"⟩, ⟨"c", true, 2, none⟩] =
      ⟨[⟨"b", true, 1, some "perm"⟩, ⟨"c", true, 2, none⟩],
        .error ⟨500, "清理失敗: perm"⟩⟩ :=
  ⟨(cleanup_deletes_files_only_no_rollback _).1 (by decide),
   (cleanup_deletes_files_only_no_rollback _).2 [⟨"a", true, 0, none⟩]
     ⟨"b", true, 1, some "perm"⟩ [⟨"c", true, 2, none⟩] "perm" rfl rfl rfl (by decide)⟩

/-- C4: a download request whose URL is empty after trimming, or whose
scheme is not http/https, or whose host is empty, is answered with
InvalidInput (400) and neither external-tool invocation is started. -/
theorem invalid_url_rejected_without_tool (rawUrl : String) (w : DownloadWorld)
    (h : pyStrip rawUrl = "" ∨
      ¬((urlparse (pyStrip rawUrl)).scheme = "http" ∨ (urlparse (pyStrip rawUrl)).scheme = "https") ∨
      (urlparse (pyStrip rawUrl)).netloc = "") :
    resultStatus (download rawUrl w).result = some 400 ∧
    (download rawUrl w).probeInvoked = false ∧
    (download rawUrl w).downloadInvoked = false := by
  rcases h with h | h
  · unfold download
    rw [if_pos h]
    exact ⟨rfl, rfl, rfl⟩
  · by_cases h0 : pyStrip rawUrl = ""
    · unfold download
      rw [if_pos h0]
      exact ⟨rfl, rfl, rfl⟩
    · unfold download
      rw [if_neg h0, if_pos h]
      exact ⟨rfl, rfl, rfl⟩

theorem invalid_url_witness :
    (resultStatus (download "   " ⟨.timeout, .malformed, "u", .timeout, []⟩).result = some 400 ∧
      (download "   " ⟨.timeout, .malformed, "u", .timeout, []⟩).probeInvoked = false ∧
      (download "   " ⟨.timeout, .malformed, "u", .timeout, []⟩).downloadInvoked = false) ∧
    (resultStatus (download "ftp://host/x" ⟨.timeout, .malformed, "u", .timeout, []⟩).result =
        some 400 ∧
      (download "ftp://host/x" ⟨.timeout, .malformed, "u", .timeout, []⟩).probeInvoked = false ∧
      (download "ftp://host/x" ⟨.timeout, .malformed, "u", .timeout, []⟩).downloadInvoked
        = false) ∧
    (resultStatus (download "http://" ⟨.timeout, .malformed, "u", .timeout, []⟩).result =
        some 400 ∧
      (download "http://" ⟨.timeout, .malformed, "u", .timeout, []⟩).probeInvoked = false ∧
      (download "http://" ⟨.timeout, .malformed, "u", .timeout, []⟩).downloadInvoked = false) :=
  ⟨invalid_url_rejected_without_tool "   " ⟨.timeout, .malformed, "u", .timeout, []⟩
     (Or.inl (by decide)),
   invalid_url_rejected_without_tool "ftp://host/x" ⟨.timeout, .malformed, "u", .timeout, []⟩
     (Or.inr (Or.inl (by decide))),
   invalid_url_rejected_without_tool "http://" ⟨.timeout, .malformed, "u", .timeout, []⟩
     (Or.inr (Or.inr (by decide)))⟩

/-- C8: the probe and the download are strictly sequential: whenever the
probe fails — by timeout, by non-zero exit, or by malformed JSON output —
the download invocation is never started for that request. -/
theorem probe_failure_short_circuits_download (rawUrl : String) (w : DownloadWorld)
    (h : w.probeOutcome = .timeout ∨
      (∃ r : ProcResult, w.probeOutcome = .completed r ∧ ¬ r.returncode = 0) ∨
      (∃ r : ProcResult, w.probeOutcome = .completed r ∧ r.returncode = 0 ∧
        w.probeJson = .malformed)) :
    (download rawUrl w).downloadInvoked = false := by
  unfold download
  by_cases h0 : pyStrip rawUrl = ""
  · rw [if_pos h0]
  · rw [if_neg h0]
    by_cases h1 : ¬((urlparse (pyStrip rawUrl)).scheme = "http" ∨
        (urlparse (pyStrip rawUrl)).scheme = "https") ∨ (urlparse (pyStrip rawUrl)).netloc = ""
    · rw [if_pos h1]
    · rw [if_neg h1]
      unfold afterValidate
      rcases h with hp | ⟨r, hp, hr⟩ | ⟨r, hp, hr, hj⟩
      · rw [hp]
      · rw [hp]
        simp [hr]
      · rw [hp, hj]
        simp [hr]

theorem probe_failure_witness :
    (download "https://example.com/v"
      ⟨.timeout, .malformed, "u", .timeout, []⟩).downloadInvoked = false ∧
    (download "https://example.com/v"
      ⟨.completed ⟨1, "", "boom"⟩, .malformed, "u", .timeout, []⟩).downloadInvoked = false ∧
    (download "https://example.com/v"
      ⟨.completed ⟨0, "not json", ""⟩, .malformed, "u", .timeout, []⟩).downloadInvoked
      = false :=
  ⟨probe_failure_short_circuits_download "https://example.com/v"
     ⟨.timeout, .malformed, "u", .timeout, []⟩ (Or.inl rfl),
   probe_failure_short_circuits_download "https://example.com/v"
     ⟨.completed ⟨1, "", "boom"⟩, .malformed, "u", .timeout, []⟩
     (Or.inr (Or.inl ⟨⟨1, "", "boom"⟩, rfl, by decide⟩)),
   probe_failure_short_circuits_download "https://example.com/v"
     ⟨.completed ⟨0, "not json", ""⟩, .malformed, "u", .timeout, []⟩
     (Or.inr (Or.inr ⟨⟨0, "not json", ""⟩, rfl, rfl, rfl⟩))⟩

/-- C5: with a valid URL, a probe that exceeds its timeout yields the 408
Timeout failure, while a probe that exits non-zero yields the 400
ProbeError whose message carries the tool's stderr truncated to its first
200 characters (the stock message when stderr is empty); truncation never
exceeds 200 characters. -/
theorem probe_timeout_distinct_from_probe_error (rawUrl : String) (w : DownloadWorld)
    (r : ProcResult)
    (hurl : ¬ pyStrip rawUrl = "")
    (hscheme : (urlparse (pyStrip rawUrl)).scheme = "http" ∨ (urlparse (pyStrip rawUrl)).scheme = "https")
    (hnet : ¬ (urlparse (pyStrip rawUrl)).netloc = "") :
    (w.probeOutcome = .timeout →
      (download rawUrl w).result = .error ⟨408, "下載超時，請稍後重試"⟩) ∧
    (w.probeOutcome = .completed r → ¬ r.returncode = 0 →
      (download rawUrl w).result =
        .error ⟨400, "無法獲取影片資訊: " ++ pyTake 200 (orDefault r.stderr "無法獲取影片資訊")⟩) ∧
    (¬ r.stderr = "" → orDefault r.stderr "無法獲取影片資訊" = r.stderr) ∧
    (∀ s : String, (pyTake 200 s).length ≤ 200) := by
  refine ⟨?_, ?_, ?_, ?_⟩
  · intro hp
    rw [download_valid rawUrl w hurl hscheme hnet]
    unfold afterValidate
    rw [hp]
  · intro hp hr
    rw [download_valid rawUrl w hurl hscheme hnet]
    unfold afterValidate
    rw [hp]
    simp [hr]
  · intro hs
    unfold orDefault
    rw [if_neg hs]
  · intro s
    unfold pyTake
    rw [length_asString, List.length_take]
    exact min_le_left _ _

theorem probe_timeout_witness :
    (download "https://example.com/v"
      ⟨.timeout, .malformed, "u", .timeout, []⟩).result =
        .error ⟨408, "下載超時，請稍後重試"⟩ ∧
    (download "https://example.com/v"
      ⟨.completed ⟨1, "", "boom"⟩, .malformed, "u", .timeout, []⟩).result =
        .error ⟨400, "無法獲取影片資訊: " ++ pyTake 200 (orDefault "boom" "無法獲取影片資訊")⟩ ∧
    (orDefault "boom" "無法獲取影片資訊" = "boom") ∧
    (pyTake 200 "boom").length ≤ 200 :=
  ⟨(probe_timeout_distinct_from_probe_error "https://example.com/v"
      ⟨.timeout, .malformed, "u", .timeout, []⟩ ⟨1, "", "boom"⟩
      (by decide) (by decide) (by decide)).1 rfl,
   (probe_timeout_distinct_from_probe_error "https://example.com/v"
      ⟨.completed ⟨1, "", "boom"⟩, .malformed, "u", .timeout, []⟩ ⟨1, "", "boom"⟩
      (by decide) (by decide) (by decide)).2.1 rfl (by decide),
   (probe_timeout_distinct_from_probe_error "https://example.com/v"
      ⟨.timeout, .malformed, "u", .timeout, []⟩ ⟨1, "", "boom"⟩
      (by decide) (by decide) (by decide)).2.2.1 (by decide),
   (probe_timeout_distinct_from_probe_error "https://example.com/v"
      ⟨.timeout, .malformed, "u", .timeout, []⟩ ⟨1, "", "boom"⟩
      (by decide) (by decide) (by decide)).2.2.2 "boom"⟩

/-- C2: after a reported-success download with an empty output directory
(so neither the exact expected path nor the glob matches and no files are
found), the resolver fails with ArtifactMissing, surfaced by the handler
as HTTP 500; no artifact path is fabricated. -/
theorem artifact_missing_surfaced_as_500 (filename safeTitle vid rawUrl : String)
    (w : DownloadWorld) (pr dr : ProcResult) (t i : Option String)
    (hurl : ¬ pyStrip rawUrl = "")
    (hscheme : (urlparse (pyStrip rawUrl)).scheme = "http" ∨ (urlparse (pyStrip rawUrl)).scheme = "https")
    (hnet : ¬ (urlparse (pyStrip rawUrl)).netloc = "")
    (hp : w.probeOutcome = .completed pr) (hpr : pr.returncode = 0)
    (hj : w.probeJson = .parsed t i)
    (hd : w.downloadOutcome = .completed dr) (hdr : dr.returncode = 0)
    (he : w.dirEntries = []) :
    resolveArtifact filename safeTitle vid [] = .error ⟨500, "下載完成但找不到檔案"⟩ ∧
    (download rawUrl w).result = .error ⟨500, "下載完成但找不到檔案"⟩ := by
  refine ⟨rfl, ?_⟩
  rw [download_valid rawUrl w hurl hscheme hnet]
  unfold afterValidate
  simp [hp, hpr, hj, afterParse, hd, hdr, he, resolveArtifact]

theorem artifact_missing_witness :
    resolveArtifact "Test Video_abc123.mp4" "Test Video" "abc123" [] =
      .error ⟨500, "下載完成但找不到檔案"⟩ ∧
    (download "https://example.com/v"
      ⟨.completed ⟨0, "{}", ""⟩, .parsed (some "Test Video") (some "abc123"), "u",
        .completed ⟨0, "", ""⟩, []⟩).result = .error ⟨500, "下載完成但找不到檔案"⟩ :=
  artifact_missing_surfaced_as_500 "Test Video_abc123.mp4" "Test Video" "abc123"
    "https://example.com/v"
    ⟨.completed ⟨0, "{}", ""⟩, .parsed (some "Test Video") (some "abc123"), "u",
      .completed ⟨0, "", ""⟩, []⟩
    ⟨0, "{}", ""⟩ ⟨0, "", ""⟩ (some "Test Video") (some "abc123")
    (by decide) (by decide) (by decide) rfl rfl rfl rfl rfl rfl

/-- The effectful context used to state C7: probe and download succeed and
the exact expected file is on disk. -/
def exactHitWorld (t i : String) : DownloadWorld :=
  ⟨.completed ⟨0, "", ""⟩, .parsed (some t) (some i), "00000000",
    .completed ⟨0, "", ""⟩, [⟨expectedFilename (safeFilename t) i, true, 0, none⟩]⟩

/-- C7: the expected filename is sanitize(title) + "_" + id + ".mp4", and
a probe reporting id "abc123" and title "Test Video" yields the expected
filename "Test Video_abc123.mp4", which the handler returns. -/
theorem expected_filename_convention :
    (∀ t i, (download "https://example.com/watch" (exactHitWorld t i)).result =
      .ok ⟨"/api/file/" ++ expectedFilename (safeFilename t) i,
        expectedFilename (safeFilename t) i, t, "yt-dlp"⟩) ∧
    (∀ t i, expectedFilename (safeFilename t) i = safeFilename t ++ "_" ++ i ++ ".mp4") ∧
    expectedFilename (safeFilename "Test Video") "abc123" = "Test Video_abc123.mp4" ∧
    (download "https://example.com/watch" (exactHitWorld "Test Video" "abc123")).result =
      .ok ⟨"/api/file/Test Video_abc123.mp4", "Test Video_abc123.mp4", "Test Video",
        "yt-dlp"⟩ := by
  refine ⟨?_, fun t i => rfl, by decide, by decide⟩
  intro t i
  rw [download_valid _ _ (by decide) (by decide) (by decide)]
  unfold afterValidate
  simp only [exactHitWorld]
  simp [afterParse, resolveArtifact]

/-- C10: a probe output that parses as JSON without a "title" key gets the
default title "video": the request is not rejected, the success response's
title field is "video", and the served filename begins with "video_". -/
theorem missing_title_defaults_to_video (rawUrl vid : String) (w : DownloadWorld)
    (pr dr : ProcResult)
    (hurl : ¬ pyStrip rawUrl = "")
    (hscheme : (urlparse (pyStrip rawUrl)).scheme = "http" ∨ (urlparse (pyStrip rawUrl)).scheme = "https")
    (hnet : ¬ (urlparse (pyStrip rawUrl)).netloc = "")
    (hp : w.probeOutcome = .completed pr) (hpr : pr.returncode = 0)
    (hj : w.probeJson = .parsed none (some vid))
    (hd : w.downloadOutcome = .completed dr) (hdr : dr.returncode = 0)
    (he : w.dirEntries = [⟨expectedFilename "video" vid, true, 0, none⟩]) :
    (download rawUrl w).result =
      .ok ⟨"/api/file/" ++ expectedFilename "video" vid, expectedFilename "video" vid,
        "video", "yt-dlp"⟩ ∧
    (∃ rest, expectedFilename "video" vid = "video_" ++ rest) ∧
    (download rawUrl w).downloadInvoked = true := by
  have hsv : safeFilename "video" = "video" := rfl
  have hlit : ("video_" : String) = "video" ++ "_" := rfl
  refine ⟨?_, ⟨vid ++ ".mp4", ?_⟩, ?_⟩
  · rw [download_valid rawUrl w hurl hscheme hnet]
    unfold afterValidate
    simp [hp, hpr, hj, afterParse, hd, hdr, he, resolveArtifact, hsv]
  · rw [hlit]
    unfold expectedFilename
    rw [String.append_assoc ("video" ++ "_") vid ".mp4"]
  · rw [download_valid rawUrl w hurl hscheme hnet]
    unfold afterValidate
    simp [hp, hpr, hj, afterParse, hd, hdr, he, resolveArtifact, hsv]

theorem missing_title_witness :
    (download "https://example.com/v"
      ⟨.completed ⟨0, "{}", ""⟩, .parsed none (some "abc123"), "u",
        .completed ⟨0, "", ""⟩, [⟨"video_abc123.mp4", true, 0, none⟩]⟩).result =
      .ok ⟨"/api/file/video_abc123.mp4", "video_abc123.mp4", "video", "yt-dlp"⟩ ∧
    (∃ rest, expectedFilename "video" "abc123" = "video_" ++ rest) ∧
    (download "https://example.com/v"
      ⟨.completed ⟨0, "{}", ""⟩, .parsed none (some "abc123"), "u",
        .completed ⟨0, "", ""⟩, [⟨"video_abc123.mp4", true, 0, none⟩]⟩).downloadInvoked
      = true :=
  missing_title_defaults_to_video "https://example.com/v" "abc123"
    ⟨.completed ⟨0, "{}", ""⟩, .parsed none (some "abc123"), "u",
      .completed ⟨0, "", ""⟩, [⟨"video_abc123.mp4", true, 0, none⟩]⟩
    ⟨0, "{}", ""⟩ ⟨0, "", ""⟩
    (by decide) (by decide) (by decide) rfl rfl rfl rfl rfl rfl

end YtDlp
